import Mathlib

/-!
# HoloJS audio host: `AudioContext.cpp`

A shallow embedding of `src/HoloJS/HoloJsHost/AudioContext.cpp`: the projected
entry points of the audio context, the asynchronous decode pipeline
(`DecodeAudioData`, its background task and the handlers it posts to the
dispatcher) and the format sniffing done on the captured bytes.

Conventions of the embedding.
* Host state is passed explicitly (`Host`); every engine call that matters for
  reference counting or script invocation appends an `Event` to `Host.trace`.
* What the script engine and the surrounding process decide (value types,
  failures of engine calls, the bytes of an array buffer, the memory found past
  a vector's end) is a parameter, `Env`.
* Bytes are natural numbers; a C string literal is the list of its character
  codes.
* A `memcmp` whose window does not lie inside the captured vector has no defined
  behaviour (on an empty vector `data()` is null). The background task that
  makes such a call has no result state (`runTask` gives `none`), and nothing
  is run after it.
-/

namespace HologramJS.Audio

/-! ## Format sniffing (lines 155-167) -/

/-- The bytes of a C string literal, without the terminating NUL; `strlen` is
the length of this list. -/
def cstr (s : String) : List Nat := s.toList.map Char.toNat

/-- Line 156: `PCSTR wavMagic1 = "RIFF"`. -/
def wavMagic1 : List Nat := cstr "RIFF"

/-- Line 157: `PCSTR wavMagic2 = "WAVE"`. -/
def wavMagic2 : List Nat := cstr "WAVE"

/-- Line 158: `PCSTR oggMagic = "OggS"`. -/
def oggMagic : List Nat := cstr "OggS"

/-- The byte found at offset `i` from `capturedBuffer.data()`: the vector's own
element when `i` is inside the vector, and whatever the process memory holds
there (`past i`) when it is not. -/
def byteAt (past : Nat → Nat) (capturedBuffer : List Nat) (i : Nat) : Nat :=
  match capturedBuffer[i]? with
  | some b => b
  | none => past i

/-- The test `memcmp(data + off, magic, strlen(magic)) == 0`, together with the
offsets from `data` that the comparison reads. The comparison is taken in
its most economical form: byte by byte, stopping at the first difference. -/
def memcmpIsZero (read : Nat → Nat) : Nat → List Nat → Bool × List Nat
  | _, [] => (true, [])
  | off, m :: ms =>
    if read off = m then
      let r := memcmpIsZero read (off + 1) ms
      (r.1, off :: r.2)
    else (false, [off])

/-- Lines 160-167: the value left in `soundExtension` (`none` for `nullptr`)
and the offsets read from `capturedBuffer.data()` on the way, in order. The
second `memcmp` of the `&&` runs only when the first one gave zero, and the
`else if` only when the first condition failed. -/
def soundExtension (read : Nat → Nat) : Option String × List Nat :=
  let c1 := memcmpIsZero read 0 wavMagic1
  if c1.1 then
    let c2 := memcmpIsZero read (wavMagic1.length + 4) wavMagic2
    if c2.1 then (some "wav", c1.2 ++ c2.2)
    else
      let c3 := memcmpIsZero read 0 oggMagic
      if c3.1 then (some "ogg", c1.2 ++ c2.2 ++ c3.2) else (none, c1.2 ++ c2.2 ++ c3.2)
  else
    let c3 := memcmpIsZero read 0 oggMagic
    if c3.1 then (some "ogg", c1.2 ++ c3.2) else (none, c1.2 ++ c3.2)

/-- The format chosen for a captured buffer. -/
def sniff (past : Nat → Nat) (capturedBuffer : List Nat) : Option String :=
  (soundExtension (byteAt past capturedBuffer)).1

/-- The offsets read while sniffing a captured buffer. -/
def sniffReads (past : Nat → Nat) (capturedBuffer : List Nat) : List Nat :=
  (soundExtension (byteAt past capturedBuffer)).2

/-- Whether the window of `memcmp(data + off, magic, strlen(magic))` lies
inside the captured vector. -/
def memcmpWithin (capturedBuffer : List Nat) (off : Nat) (magic : List Nat) : Bool :=
  decide (off + magic.length ≤ capturedBuffer.length)

/-- Whether every `memcmp` that lines 162-167 evaluate on this buffer has its
window inside the vector. The comparisons are taken in the order the code
evaluates them: the second one of the `&&` only when the first gave zero, the
one of the `else if` only when the first condition failed. -/
def soundExtensionWithin (past : Nat → Nat) (capturedBuffer : List Nat) : Bool :=
  memcmpWithin capturedBuffer 0 wavMagic1 &&
    (if (memcmpIsZero (byteAt past capturedBuffer) 0 wavMagic1).1 then
      memcmpWithin capturedBuffer (wavMagic1.length + 4) wavMagic2 &&
        (if (memcmpIsZero (byteAt past capturedBuffer) (wavMagic1.length + 4) wavMagic2).1 then
          true
        else memcmpWithin capturedBuffer 0 oggMagic)
    else memcmpWithin capturedBuffer 0 oggMagic)

/-! ## Script engine values and the environment -/

/-- A `JsValueRef`. `invalid` is `JS_INVALID_REFERENCE` (the null reference);
`script` values are made by script (functions, array buffers, numbers);
`external` values are the external objects the host makes through the
resource tracker. -/
inductive JsValueRef where
  | invalid
  | script (id : Nat)
  | external (id : Nat)
  deriving DecidableEq, Repr

/-- The null reference of the engine. -/
abbrev JS_INVALID_REFERENCE : JsValueRef := JsValueRef.invalid

/-- The engine's `JsValueType`. -/
inductive JsValueType where
  | JsUndefined | JsNull | JsNumber | JsString | JsBoolean | JsObject | JsFunction
  | JsError | JsArray | JsSymbol | JsArrayBuffer | JsTypedArray | JsDataView
  deriving DecidableEq, Repr

/-- A `GLfloat`/`float`, kept as its bit pattern: the code only moves these
values around. -/
abbrev GLfloat := Nat

/-- The two places of the file that call into script: line 223
(`callbackScriptOnDecodeSuccess`) and line 209 (`callbackScriptOnDecodeError`). -/
inductive CallSite where
  | decodeSuccess
  | decodeError
  deriving DecidableEq, Repr

/-- What the host did to the engine, in order: a `JsAddRef` that succeeded, a
`JsRelease`, a `JsCallFunction` with the function and its argument array. -/
inductive Event where
  | addRef (v : JsValueRef)
  | release (v : JsValueRef)
  | callFunction (site : CallSite) (function : JsValueRef) (arguments : List JsValueRef)
  deriving DecidableEq, Repr

/-- What is decided outside this file. The engine: the type of a value
(`none` when `JsGetValueType` fails), whether a `JsAddRef` on a non-null value
fails given what happened so far, the bytes behind an array buffer (`none` when
`JsGetArrayBufferStorage` fails), whether a script call fails. The process:
the byte found at an offset past the end of the captured vector. Headers of
this repository that are not among the sources: the number conversion
`ScriptHostUtilities::GLfloatFromJsRef`, and whether the macro
`HANDLE_EXCEPTION_IF_JS_ERROR` leaves the function on an error. -/
structure Env where
  JsGetValueType : JsValueRef → Option JsValueType
  addRefFails : List Event → JsValueRef → Bool
  JsGetArrayBufferStorage : JsValueRef → Option (List Nat)
  callFunctionFails : JsValueRef → List JsValueRef → Bool
  memoryPast : Nat → Nat
  GLfloatFromJsRef : JsValueRef → GLfloat
  handleExceptionExits : Bool

/-! ## Native engine objects and host objects -/

/-- The kind of a native DSP node (`lab::GainNode`, `lab::PannerNode`,
`lab::AudioBufferSourceNode`, the destination node). -/
inductive LabNodeKind where
  | gain | panner | bufferSource | destination
  deriving DecidableEq, Repr

/-- A native DSP node as this file sees it: its kind and the sample rate it was
constructed with. Its identity is its index in `Host.labNodes`. -/
structure LabNode where
  kind : LabNodeKind
  sampleRate : GLfloat
  deriving DecidableEq, Repr

/-- The native engine context (`lab::AudioContext`) as this file sees it. -/
structure LabContext where
  sampleRate : GLfloat
  destination : Nat
  listenerPosition : GLfloat × GLfloat × GLfloat
  listenerOrientation : GLfloat × GLfloat × GLfloat × GLfloat × GLfloat × GLfloat
  deriving DecidableEq, Repr

/-- A native `lab::SoundBuffer` as this file sees it: the arguments of its
constructor (line 171). -/
structure LabSoundBuffer where
  data : List Nat
  extension : String
  sampleRate : GLfloat
  deriving DecidableEq, Repr

/-- The fields of an `AudioContext`. The native context is made by the
constructor (line 19), one per `AudioContext`, so it is kept in place; a
`shared_ptr` to it is the address of the `AudioContext` that holds it. -/
structure AudioContext where
  m_context : LabContext
  m_audioNodes : List Nat
  deriving DecidableEq, Repr

/-- An object on the host heap. The node wrappers are built from the owning
context's `m_context` and a native node. -/
inductive HostObject where
  | audioContext (c : AudioContext)
  | gainNode (context : Nat) (node : Nat)
  | pannerNode (context : Nat) (node : Nat)
  | audioBufferSourceNode (context : Nat) (node : Nat)
  | audioDestinationNode (context : Nat) (node : Nat)
  | soundBuffer (buffer : LabSoundBuffer)
  deriving DecidableEq, Repr

/-- The lambda given to `create_async` (line 148) with its captures. -/
inductive Task where
  | decode (this : Nat) (data onSuccess onError : JsValueRef)
  deriving DecidableEq, Repr

/-- The lambdas given to the dispatcher (lines 174 and 191) with their
captures. -/
inductive Handler where
  | decodeSuccess (this : Nat) (soundBuffer : LabSoundBuffer) (onSuccess : JsValueRef)
  | decodeError (this : Nat) (onError : JsValueRef)
  deriving DecidableEq, Repr

/-- The state of the host: the heap of host objects (an address is an index),
the native nodes made so far, the external objects of the resource tracker
(external `k` stands for the host object at `externals[k]`), the engine
events, and the work not yet run: background tasks and dispatcher handlers. -/
structure Host where
  objects : List HostObject
  labNodes : List LabNode
  externals : List Nat
  trace : List Event
  background : List Task
  dispatcher : List Handler
  deriving DecidableEq, Repr

/-- The C++ expression `new T(...)`: the object is put on the heap and its address returned. -/
def newObject (o : HostObject) (h : Host) : Nat × Host :=
  (h.objects.length, { h with objects := h.objects ++ [o] })

/-- The C++ expression `std::make_shared<lab::T>(sampleRate)`. -/
def make_shared (n : LabNode) (h : Host) : Nat × Host :=
  (h.labNodes.length, { h with labNodes := h.labNodes ++ [n] })

/-- Writes through a pointer to a host object. -/
def setObject (p : Nat) (o : HostObject) (h : Host) : Host :=
  { h with objects := h.objects.set p o }

/-- Modelled from the spec: `ScriptResourceTracker::ObjectToDirectExternal`,
whose header is not among the sources. "wrap(object) -> Handle: creates a
handle for a freshly constructed object". -/
def ObjectToDirectExternal (p : Nat) (h : Host) : JsValueRef × Host :=
  (JsValueRef.external h.externals.length, { h with externals := h.externals ++ [p] })

/-- Modelled from the spec: the resolution step of
`ScriptResourceTracker::ExternalToObject`, whose header is not among the
sources. "unwrap(handle) -> object | null: resolves a handle to its native
object, or null if the handle is stale, of the wrong kind, or otherwise
invalid". -/
def externalObject (h : Host) (ref : JsValueRef) : Option (Nat × HostObject) :=
  match ref with
  | JsValueRef.external k =>
    match h.externals[k]? with
    | some p =>
      match h.objects[p]? with
      | some o => some (p, o)
      | none => none
    | none => none
  | _ => none

/-- Modelled from the spec: `ScriptResourceTracker::ExternalToObject<AudioContext>`:
the address and the object when the handle stands for an `AudioContext`, null
otherwise ("No implicit cross-type coercion"). -/
def ExternalToObject (h : Host) (ref : JsValueRef) : Option (Nat × AudioContext) :=
  match externalObject h ref with
  | some (p, HostObject.audioContext c) => some (p, c)
  | _ => none

/-- Modelled from the spec: the value `RETURN_IF_FALSE` returns from an entry
point; the macro's header is not among the sources. "on mismatch it returns an
explicit invalid-reference sentinel instead of proceeding". -/
def RETURN_IF_FALSE_result : JsValueRef := JS_INVALID_REFERENCE

/-- The element `arguments[i]` of the argument array. -/
def argument (arguments : List JsValueRef) (i : Nat) : JsValueRef :=
  arguments.getD i JS_INVALID_REFERENCE

/-! ## Projected entry points (lines 39-132)

The parameters `callee`, `isConstructCall` and `callbackData` are used by none
of them and are left out. -/

/-- Lines 39-54. -/
def listener_setPosition (e : Env) (arguments : List JsValueRef) (argumentCount : Nat)
    (h : Host) : JsValueRef × Host :=
  if argumentCount ≠ 5 then (RETURN_IF_FALSE_result, h)
  else
    match ExternalToObject h (argument arguments 1) with
    | none => (JS_INVALID_REFERENCE, h)
    | some (p, audioContext) =>
      let x := e.GLfloatFromJsRef (argument arguments 2)
      let y := e.GLfloatFromJsRef (argument arguments 3)
      let z := e.GLfloatFromJsRef (argument arguments 4)
      (JS_INVALID_REFERENCE,
        setObject p (HostObject.audioContext
          { audioContext with
            m_context := { audioContext.m_context with listenerPosition := (x, y, z) } }) h)

/-- Lines 56-75. -/
def listener_setOrientation (e : Env) (arguments : List JsValueRef) (argumentCount : Nat)
    (h : Host) : JsValueRef × Host :=
  if argumentCount ≠ 8 then (RETURN_IF_FALSE_result, h)
  else
    match ExternalToObject h (argument arguments 1) with
    | none => (JS_INVALID_REFERENCE, h)
    | some (p, audioContext) =>
      let x := e.GLfloatFromJsRef (argument arguments 2)
      let y := e.GLfloatFromJsRef (argument arguments 3)
      let z := e.GLfloatFromJsRef (argument arguments 4)
      let upX := e.GLfloatFromJsRef (argument arguments 5)
      let upY := e.GLfloatFromJsRef (argument arguments 6)
      let upZ := e.GLfloatFromJsRef (argument arguments 7)
      (JS_INVALID_REFERENCE,
        setObject p (HostObject.audioContext
          { audioContext with
            m_context :=
              { audioContext.m_context with listenerOrientation := (x, y, z, upX, upY, upZ) } }) h)

/-- Lines 77-88. -/
def createPanner (arguments : List JsValueRef) (argumentCount : Nat) (h : Host) :
    JsValueRef × Host :=
  if argumentCount ≠ 2 then (RETURN_IF_FALSE_result, h)
  else
    match ExternalToObject h (argument arguments 1) with
    | none => (JS_INVALID_REFERENCE, h)
    | some (p, audioContext) =>
      let node := make_shared ⟨LabNodeKind.panner, audioContext.m_context.sampleRate⟩ h
      let newPannerNode := newObject (HostObject.pannerNode p node.1) node.2
      ObjectToDirectExternal newPannerNode.1 newPannerNode.2

/-- Lines 127-132, a member function: `this` is the address of the context and
`c` the object found there. -/
def createGain (this : Nat) (c : AudioContext) (h : Host) : JsValueRef × Host :=
  let node := make_shared ⟨LabNodeKind.gain, c.m_context.sampleRate⟩ h
  let newGainNode := newObject (HostObject.gainNode this node.1) node.2
  let h1 := setObject this
    (HostObject.audioContext { c with m_audioNodes := c.m_audioNodes ++ [newGainNode.1] })
    newGainNode.2
  ObjectToDirectExternal newGainNode.1 h1

/-- Lines 90-99. -/
def createGainStatic (arguments : List JsValueRef) (argumentCount : Nat) (h : Host) :
    JsValueRef × Host :=
  if argumentCount ≠ 2 then (RETURN_IF_FALSE_result, h)
  else
    match ExternalToObject h (argument arguments 1) with
    | none => (JS_INVALID_REFERENCE, h)
    | some (p, context) => createGain p context h

/-- Lines 101-111. -/
def getDestination (arguments : List JsValueRef) (argumentCount : Nat) (h : Host) :
    JsValueRef × Host :=
  if argumentCount ≠ 2 then (RETURN_IF_FALSE_result, h)
  else
    match ExternalToObject h (argument arguments 1) with
    | none => (JS_INVALID_REFERENCE, h)
    | some (p, context) =>
      let wrapper := newObject (HostObject.audioDestinationNode p context.m_context.destination) h
      ObjectToDirectExternal wrapper.1 wrapper.2

/-- Lines 113-125. -/
def createBufferSource (arguments : List JsValueRef) (argumentCount : Nat) (h : Host) :
    JsValueRef × Host :=
  if argumentCount ≠ 2 then (RETURN_IF_FALSE_result, h)
  else
    match ExternalToObject h (argument arguments 1) with
    | none => (JS_INVALID_REFERENCE, h)
    | some (p, context) =>
      let audioBufferSourceNode :=
        make_shared ⟨LabNodeKind.bufferSource, context.m_context.sampleRate⟩ h
      let wrapper :=
        newObject (HostObject.audioBufferSourceNode p audioBufferSourceNode.1)
          audioBufferSourceNode.2
      ObjectToDirectExternal wrapper.1 wrapper.2

/-- Lines 23-37, `InitializeProjections`: the script name of each projected
function and the entry point registered under it. -/
def projections (e : Env) :
    List (String × (List JsValueRef → Nat → Host → JsValueRef × Host)) :=
  [("createGain", createGainStatic),
   ("getDestination", getDestination),
   ("createBufferSource", createBufferSource),
   ("createPanner", createPanner),
   ("listener_setPosition", listener_setPosition e),
   ("listener_setOrientation", listener_setOrientation e)]

/-- The argument count the specification gives for each projected name: the
callee, the receiver, and the listed parameters. -/
def specArgumentCount (name : String) : Nat :=
  if name = "listener_setPosition" then 5
  else if name = "listener_setOrientation" then 8
  else 2

/-! ## The decode pipeline (lines 134-226) -/

/-- The engine's `JsAddRef(v, nullptr)`: `none` when it returns an error. The
engine rejects the null reference; on any other value the outcome is the
environment's. A call that succeeds is recorded. -/
def JsAddRef (e : Env) (v : JsValueRef) (h : Host) : Option Host :=
  if v = JS_INVALID_REFERENCE ∨ e.addRefFails h.trace v = true then none
  else some { h with trace := h.trace ++ [Event.addRef v] }

/-- The engine's `JsRelease(v, nullptr)`; the code never looks at its result. -/
def JsRelease (v : JsValueRef) (h : Host) : Host :=
  { h with trace := h.trace ++ [Event.release v] }

/-- The engine's `JsCallFunction(function, arguments, count, &result)`: the
call is recorded, and the boolean tells whether it returned an error. -/
def JsCallFunction (e : Env) (site : CallSite) (function : JsValueRef)
    (arguments : List JsValueRef) (h : Host) : Bool × Host :=
  (e.callFunctionFails function arguments,
    { h with trace := h.trace ++ [Event.callFunction site function arguments] })

/-- The dispatcher's `RunAsync(CoreDispatcherPriority::Normal, handler)`. -/
def RunAsync (handler : Handler) (h : Host) : Host :=
  { h with dispatcher := h.dispatcher ++ [handler] }

/-- The call `create_async(task)`. -/
def create_async (task : Task) (h : Host) : Host :=
  { h with background := h.background ++ [task] }

/-- The expression `m_context->sampleRate()` inside a member function of the
context at `this` (0 when no context lives there, which a member call
excludes). -/
def sampleRate (h : Host) (this : Nat) : GLfloat :=
  match h.objects[this]? with
  | some (HostObject.audioContext c) => c.m_context.sampleRate
  | _ => 0

/-- Lines 204-212. -/
def callbackScriptOnDecodeError (e : Env) (callback : JsValueRef) (h : Host) : Host :=
  if callback = JS_INVALID_REFERENCE then h
  else
    let r := JsCallFunction e CallSite.decodeError callback [callback] h
    if r.1 = true ∧ e.handleExceptionExits = true then r.2
    else JsRelease callback r.2

/-- Lines 214-226. -/
def callbackScriptOnDecodeSuccess (e : Env) (soundBuffer : LabSoundBuffer)
    (callback : JsValueRef) (h : Host) : Host :=
  if callback = JS_INVALID_REFERENCE then h
  else
    let wrapper := newObject (HostObject.soundBuffer soundBuffer) h
    let handle := ObjectToDirectExternal wrapper.1 wrapper.2
    let parameters := [callback, handle.1]
    let r := JsCallFunction e CallSite.decodeSuccess callback parameters handle.2
    if r.1 = true ∧ e.handleExceptionExits = true then r.2
    else JsRelease callback r.2

/-- Lines 189-198: the end of the background lambda, reached when the storage
could not be obtained or no format was recognized. -/
def decodeFailed (onSuccess data onError : JsValueRef) (this : Nat) (h : Host) : Host :=
  let h1 :=
    if onError ≠ JS_INVALID_REFERENCE then RunAsync (Handler.decodeError this onError) h else h
  JsRelease data (JsRelease onSuccess h1)

/-- Lines 148-199: the body of the lambda given to `create_async`. The result
is `none` when sniffing compares bytes outside the captured vector: the task
then has no defined behaviour and reaches neither terminal path. -/
def runTask (e : Env) (task : Task) (h : Host) : Option Host :=
  match task with
  | Task.decode this data onSuccess onError =>
    match e.JsGetArrayBufferStorage data with
    | some buffer =>
      let capturedBuffer := buffer
      if soundExtensionWithin e.memoryPast capturedBuffer = false then none
      else
        match (soundExtension (byteAt e.memoryPast capturedBuffer)).1 with
        | some ext =>
          let soundBuffer : LabSoundBuffer := ⟨capturedBuffer, ext, sampleRate h this⟩
          let h1 := RunAsync (Handler.decodeSuccess this soundBuffer onSuccess) h
          let h2 := if onError ≠ JS_INVALID_REFERENCE then JsRelease onError h1 else h1
          some (JsRelease data h2)
        | none => some (decodeFailed onSuccess data onError this h)
    | none => some (decodeFailed onSuccess data onError this h)

/-- Lines 174-177 and 191-194: the bodies of the two dispatcher lambdas. -/
def runHandler (e : Env) (handler : Handler) (h : Host) : Host :=
  match handler with
  | Handler.decodeSuccess _ soundBuffer onSuccess =>
    JsRelease onSuccess (callbackScriptOnDecodeSuccess e soundBuffer onSuccess h)
  | Handler.decodeError _ onError =>
    JsRelease onError (callbackScriptOnDecodeError e onError h)

/-- Lines 134-202: the synchronous part of `DecodeAudioData`, a member function
of the context at `this`. -/
def DecodeAudioData (e : Env) (this : Nat) (data onSuccess onError : JsValueRef) (h : Host) :
    Bool × Host :=
  match e.JsGetValueType data with
  | none => (false, h)
  | some dataType =>
    if dataType ≠ JsValueType.JsArrayBuffer then (false, h)
    else
      match JsAddRef e onSuccess h with
      | none => (false, h)
      | some h1 =>
        match JsAddRef e data h1 with
        | none => (false, h1)
        | some h2 =>
          if onError ≠ JS_INVALID_REFERENCE then
            match JsAddRef e onError h2 with
            | none => (false, h2)
            | some h3 => (true, create_async (Task.decode this data onSuccess onError) h3)
          else (true, create_async (Task.decode this data onSuccess onError) h2)

/-- Runs background tasks in order: the state reached, and whether a task was
met that has no defined behaviour. Such a task stops the run, and the state
is the one before it. -/
def runTasks (e : Env) : List Task → Host → Host × Bool
  | [], s => (s, false)
  | t :: ts, s =>
    match runTask e t s with
    | some s1 => runTasks e ts s1
    | none => (s, true)

/-- Runs the pending work to the end: every background task, in order, then
every handler found on the dispatcher, in order. Neither kind of lambda
starts a background task, and a handler posts no handler. When a task has no
defined behaviour nothing is run after it, the handlers included. -/
def runPending (e : Env) (h : Host) : Host :=
  let r := runTasks e h.background { h with background := [] }
  if r.2 = true then r.1
  else r.1.dispatcher.foldl (fun s k => runHandler e k s) { r.1 with dispatcher := [] }

/-- Lines 151-167 as one value: what the background task settles on for `data`.
The outer `none` stands for a sniffing that compares bytes outside the
captured vector (no defined behaviour); `some none` for a storage that cannot
be obtained or a buffer matching no signature; `some (some ext)` for a
recognized format. -/
def recognizedFormat (e : Env) (data : JsValueRef) : Option (Option String) :=
  match e.JsGetArrayBufferStorage data with
  | some buffer =>
    if soundExtensionWithin e.memoryPast buffer = false then none
    else some (soundExtension (byteAt e.memoryPast buffer)).1
  | none => some none

/-- The engine events of a decode request made on a host with no pending work:
those of the call, of its background task and of the handlers posted. -/
def requestEvents (e : Env) (this : Nat) (data onSuccess onError : JsValueRef) (h : Host) :
    List Event :=
  (runPending e (DecodeAudioData e this data onSuccess onError h).2).trace.drop h.trace.length

/-- How many references the events add to `v`. -/
def addRefCount (v : JsValueRef) (t : List Event) : Nat := t.count (Event.addRef v)

/-- How many times the events release `v`. -/
def releaseCount (v : JsValueRef) (t : List Event) : Nat := t.count (Event.release v)

/-- The script calls among the events: call site, function, argument array. -/
def scriptCalls : List Event → List (CallSite × JsValueRef × List JsValueRef)
  | [] => []
  | Event.callFunction site f args :: t => (site, f, args) :: scriptCalls t
  | _ :: t => scriptCalls t

/-- How many times the success callback was invoked. -/
def successInvocations (t : List Event) : Nat :=
  (scriptCalls t).countP (fun c => c.1 = CallSite.decodeSuccess)

/-- How many times the error callback was invoked. -/
def errorInvocations (t : List Event) : Nat :=
  (scriptCalls t).countP (fun c => c.1 = CallSite.decodeError)

/-! ## Sample hosts and environments -/

/-- An environment where every engine call succeeds, `script 1` is an array
buffer holding `bytes` and every other value is a function. -/
def sampleEnv (bytes : List Nat) : Env where
  JsGetValueType v := if v = JsValueRef.script 1 then some JsValueType.JsArrayBuffer
    else some JsValueType.JsFunction
  addRefFails _ _ := false
  JsGetArrayBufferStorage v := if v = JsValueRef.script 1 then some bytes else none
  callFunctionFails _ _ := false
  memoryPast _ := 0
  GLfloatFromJsRef _ := 0
  handleExceptionExits := false

/-- The environment `sampleEnv`, but the engine fails to add a reference to the array buffer. -/
def addRefFailsOnData (bytes : List Nat) : Env :=
  { sampleEnv bytes with addRefFails := fun _ v => decide (v = JsValueRef.script 1) }

/-- A host with one audio context at address 0, known to script as external 0,
whose native destination is native node 0, and nothing pending. -/
def sampleHost : Host where
  objects := [HostObject.audioContext ⟨⟨44100, 0, (0, 0, 0), (0, 0, 0, 0, 0, 0)⟩, []⟩]
  labNodes := [⟨LabNodeKind.destination, 44100⟩]
  externals := [0]
  trace := []
  background := []
  dispatcher := []

/-- The array buffer of the sample environments. -/
def sampleData : JsValueRef := JsValueRef.script 1

/-- A script function used as success callback. -/
def sampleOnSuccess : JsValueRef := JsValueRef.script 2

/-- A script function used as error callback. -/
def sampleOnError : JsValueRef := JsValueRef.script 3

/-- Four bytes matching no signature, then a payload: "FOOB", 1, 2, ..., 8. -/
def foob : List Nat := [70, 79, 79, 66, 1, 2, 3, 4, 5, 6, 7, 8]

/-- Twelve bytes: "RIFF", four filler bytes, "WAVE". -/
def riffWave : List Nat := [82, 73, 70, 70, 0, 0, 0, 0, 87, 65, 86, 69]

/-! ### Lemmas on sniffing -/

theorem wavMagic1_eq : wavMagic1 = [82, 73, 70, 70] := by decide

theorem wavMagic2_eq : wavMagic2 = [87, 65, 86, 69] := by decide

theorem oggMagic_eq : oggMagic = [79, 103, 103, 83] := by decide

/-- The comparison gives zero exactly when the window starting at `off` holds
the magic bytes. -/
theorem memcmpIsZero_fst (read : Nat → Nat) (off : Nat) (ms : List Nat) :
    (memcmpIsZero read off ms).1 = true ↔ (List.range' off ms.length).map read = ms := by
  induction ms generalizing off with
  | nil => simp [memcmpIsZero]
  | cons m ms ih =>
    by_cases hm : read off = m
    · simp [memcmpIsZero, hm, List.range'_succ, ih]
    · simp [memcmpIsZero, hm, List.range'_succ]

/-- Every offset read by a comparison lies inside its window. -/
theorem memcmpIsZero_reads (read : Nat → Nat) (off : Nat) (ms : List Nat) :
    ∀ i ∈ (memcmpIsZero read off ms).2, off ≤ i ∧ i < off + ms.length := by
  induction ms generalizing off with
  | nil => simp [memcmpIsZero]
  | cons m ms ih =>
    intro i hi
    by_cases hm : read off = m
    · simp only [memcmpIsZero, hm, if_true, List.mem_cons] at hi
      rcases hi with rfl | hi
      · simp
      · have := ih (off + 1) i hi
        simp only [List.length_cons]
        omega
    · simp only [memcmpIsZero, hm, if_false, List.mem_singleton] at hi
      subst hi
      simp

/-- What the first comparison reads is among the offsets read by sniffing. -/
theorem soundExtension_reads_first (read : Nat → Nat) (i : Nat)
    (hi : i ∈ (memcmpIsZero read 0 wavMagic1).2) : i ∈ (soundExtension read).2 := by
  unfold soundExtension
  simp only
  split_ifs <;> simp [List.mem_append, hi]

/-- The value of `soundExtension` in terms of the three window tests. -/
theorem soundExtension_fst (read : Nat → Nat) :
    (soundExtension read).1 =
      if (List.range' 0 4).map read = wavMagic1 ∧ (List.range' 8 4).map read = wavMagic2 then
        some "wav"
      else if (List.range' 0 4).map read = oggMagic then some "ogg" else none := by
  have l1 : wavMagic1.length + 4 = 8 := by decide
  have e1 := memcmpIsZero_fst read 0 wavMagic1
  have e2 := memcmpIsZero_fst read 8 wavMagic2
  have e3 := memcmpIsZero_fst read 0 oggMagic
  rw [show wavMagic1.length = 4 by decide] at e1
  rw [show wavMagic2.length = 4 by decide] at e2
  rw [show oggMagic.length = 4 by decide] at e3
  simp only [soundExtension, l1]
  by_cases c1 : (memcmpIsZero read 0 wavMagic1).1 = true <;>
    by_cases c2 : (memcmpIsZero read 8 wavMagic2).1 = true <;>
    by_cases c3 : (memcmpIsZero read 0 oggMagic).1 = true <;>
    simp only [c1, c2, c3, if_true, if_false, ← e1, ← e2, ← e3, and_self, and_false, false_and,
      Bool.false_eq_true]

/-- On a buffer of at least twelve bytes the windows are windows of the buffer. -/
theorem map_byteAt_window (past : Nat → Nat) (buf : List Nat) (off n : Nat)
    (h : off + n ≤ buf.length) :
    (List.range' off n).map (byteAt past buf) = (buf.drop off).take n := by
  induction n generalizing off with
  | zero => simp
  | succ n ih =>
    have hlt : off < buf.length := by omega
    have hd : buf.drop off = buf[off] :: buf.drop (off + 1) := by
      simp
    rw [List.range'_succ, List.map_cons, ih (off + 1) (by omega), hd, List.take_succ_cons]
    simp [byteAt, List.getElem?_eq_getElem hlt]

/-- The sniffing decision as a function of the two signature windows, for a
buffer that covers both. -/
theorem sniff_eq_of_length (past : Nat → Nat) (buf : List Nat) (h : 12 ≤ buf.length) :
    sniff past buf =
      if buf.take 4 = wavMagic1 ∧ (buf.drop 8).take 4 = wavMagic2 then some "wav"
      else if buf.take 4 = oggMagic then some "ogg" else none := by
  rw [sniff, soundExtension_fst, map_byteAt_window past buf 0 4 (by omega),
    map_byteAt_window past buf 8 4 (by omega)]
  simp

/-- A buffer of at least twelve bytes holds every window that sniffing compares. -/
theorem soundExtensionWithin_of_length (past : Nat → Nat) (buf : List Nat)
    (h : 12 ≤ buf.length) : soundExtensionWithin past buf = true := by
  have l1 : wavMagic1.length = 4 := by decide
  have l2 : wavMagic2.length = 4 := by decide
  have l3 : oggMagic.length = 4 := by decide
  have w1 : memcmpWithin buf 0 wavMagic1 = true := by
    simp only [memcmpWithin, l1, decide_eq_true_eq]
    omega
  have w2 : memcmpWithin buf (wavMagic1.length + 4) wavMagic2 = true := by
    simp only [memcmpWithin, l1, l2, decide_eq_true_eq]
    omega
  have w3 : memcmpWithin buf 0 oggMagic = true := by
    simp only [memcmpWithin, l3, decide_eq_true_eq]
    omega
  simp [soundExtensionWithin, w1, w2, w3]

/-- When every compared window lies inside the buffer, every offset that
sniffing reads is below the buffer's length. -/
theorem soundExtensionWithin_reads (past : Nat → Nat) (buf : List Nat)
    (h : soundExtensionWithin past buf = true) :
    ∀ i ∈ sniffReads past buf, i < buf.length := by
  have r1 := memcmpIsZero_reads (byteAt past buf) 0 wavMagic1
  have r2 := memcmpIsZero_reads (byteAt past buf) (wavMagic1.length + 4) wavMagic2
  have r3 := memcmpIsZero_reads (byteAt past buf) 0 oggMagic
  simp only [soundExtensionWithin, memcmpWithin, Bool.and_eq_true, decide_eq_true_eq] at h
  obtain ⟨h1, h2⟩ := h
  intro i hi
  unfold sniffReads soundExtension at hi
  simp only at hi
  by_cases c1 : (memcmpIsZero (byteAt past buf) 0 wavMagic1).1 = true
  · simp only [c1, if_true, Bool.and_eq_true, decide_eq_true_eq] at h2 hi
    obtain ⟨h2a, h2b⟩ := h2
    by_cases c2 : (memcmpIsZero (byteAt past buf) (wavMagic1.length + 4) wavMagic2).1 = true
    · simp only [c2, if_true, List.mem_append] at hi
      rcases hi with hi | hi
      · have := r1 i hi
        omega
      · have := r2 i hi
        omega
    · simp only [c2, Bool.false_eq_true, if_false, decide_eq_true_eq] at h2b hi
      have hi2 : i ∈ (memcmpIsZero (byteAt past buf) 0 wavMagic1).2 ∨
          i ∈ (memcmpIsZero (byteAt past buf) (wavMagic1.length + 4) wavMagic2).2 ∨
          i ∈ (memcmpIsZero (byteAt past buf) 0 oggMagic).2 := by
        split_ifs at hi <;> simpa [List.mem_append, or_assoc] using hi
      rcases hi2 with hi | hi | hi
      · have := r1 i hi
        omega
      · have := r2 i hi
        omega
      · have := r3 i hi
        omega
  · simp only [c1, Bool.false_eq_true, if_false, decide_eq_true_eq] at h2 hi
    have hi2 : i ∈ (memcmpIsZero (byteAt past buf) 0 wavMagic1).2 ∨
        i ∈ (memcmpIsZero (byteAt past buf) 0 oggMagic).2 := by
      split_ifs at hi <;> simpa [List.mem_append] using hi
    rcases hi2 with hi | hi
    · have := r1 i hi
      omega
    · have := r3 i hi
      omega

/-! ### Lemmas on the resource tracker and the entry points -/

theorem externalObject_append (h : Host) (ref : JsValueRef) (r : Nat × HostObject)
    (os : List HostObject) (xs : List Nat) (hr : externalObject h ref = some r) :
    externalObject { h with objects := h.objects ++ os, externals := h.externals ++ xs } ref
      = some r := by
  cases ref with
  | invalid => simp [externalObject] at hr
  | script id => simp [externalObject] at hr
  | external k =>
    simp only [externalObject] at hr ⊢
    cases hk : h.externals[k]? with
    | none => simp [hk] at hr
    | some q =>
      have hk1 : k < h.externals.length := (List.getElem?_eq_some_iff.mp hk).1
      simp only [hk] at hr
      cases hq : h.objects[q]? with
      | none => simp [hq] at hr
      | some o =>
        have hq1 : q < h.objects.length := (List.getElem?_eq_some_iff.mp hq).1
        simp only [hq] at hr
        simp [List.getElem?_append_left hk1, List.getElem?_append_left hq1, hk, hq, hr]

theorem ExternalToObject_append (h : Host) (ref : JsValueRef) (p : Nat) (c : AudioContext)
    (os : List HostObject) (xs : List Nat) (hr : ExternalToObject h ref = some (p, c)) :
    ExternalToObject { h with objects := h.objects ++ os, externals := h.externals ++ xs } ref
      = some (p, c) := by
  have hx : externalObject h ref = some (p, HostObject.audioContext c) := by
    unfold ExternalToObject at hr
    split at hr
    · simp only [Option.some.injEq, Prod.mk.injEq] at hr
      obtain ⟨rfl, rfl⟩ := hr
      assumption
    · simp at hr
  simp [ExternalToObject, externalObject_append h ref _ os xs hx]

theorem getElem?_append_cons_length {α : Type} (l : List α) (a : α) (l2 : List α) :
    (l ++ a :: l2)[l.length]? = some a := by
  rw [List.getElem?_append_right (Nat.le_refl _)]
  simp

/-- A handle made for the object just put on the heap resolves to it. -/
theorem externalObject_new (h : Host) (o : HostObject) (os : List HostObject) (xs : List Nat) :
    externalObject
      { h with objects := h.objects ++ o :: os,
               externals := h.externals ++ h.objects.length :: xs }
      (JsValueRef.external h.externals.length) = some (h.objects.length, o) := by
  simp only [externalObject, getElem?_append_cons_length]

/-! ### Lemmas on the decode pipeline -/

/-- What an accepted call did: it added one reference to the success callback,
one to the data, one to the error callback when there is one, and started the
background task. -/
theorem DecodeAudioData_accepted (e : Env) (this : Nat) (data onSuccess onError : JsValueRef)
    (h : Host) (hacc : (DecodeAudioData e this data onSuccess onError h).1 = true) :
    onSuccess ≠ JS_INVALID_REFERENCE ∧
    (DecodeAudioData e this data onSuccess onError h).2 =
      { h with
        trace := h.trace ++ (Event.addRef onSuccess :: Event.addRef data ::
          (if onError = JS_INVALID_REFERENCE then [] else [Event.addRef onError])),
        background := h.background ++ [Task.decode this data onSuccess onError] } := by
  cases ht : e.JsGetValueType data with
  | none => simp [DecodeAudioData, ht] at hacc
  | some ty =>
    by_cases hty : ty = JsValueType.JsArrayBuffer
    swap
    · simp [DecodeAudioData, ht, hty] at hacc
    by_cases c1 : onSuccess = JS_INVALID_REFERENCE ∨ e.addRefFails h.trace onSuccess = true
    · simp [DecodeAudioData, JsAddRef, ht, hty, c1] at hacc
    by_cases c2 : data = JS_INVALID_REFERENCE ∨
        e.addRefFails (h.trace ++ [Event.addRef onSuccess]) data = true
    · simp [DecodeAudioData, JsAddRef, ht, hty, c1, c2] at hacc
    refine ⟨fun hx => c1 (Or.inl hx), ?_⟩
    by_cases he : onError = JS_INVALID_REFERENCE
    · simp [DecodeAudioData, JsAddRef, ht, hty, c1, c2, he, create_async]
    by_cases c3 :
        e.addRefFails (h.trace ++ [Event.addRef onSuccess, Event.addRef data]) onError = true
    · simp [DecodeAudioData, JsAddRef, ht, hty, c1, c2, he, c3] at hacc
    · simp [DecodeAudioData, JsAddRef, ht, hty, c1, c2, he, c3, create_async]

/-- The events of an accepted request made on a host with no pending work. -/
theorem requestEvents_eq (e : Env) (this : Nat) (data onSuccess onError : JsValueRef) (h : Host)
    (hb : h.background = []) (hd : h.dispatcher = [])
    (hacc : (DecodeAudioData e this data onSuccess onError h).1 = true) :
    requestEvents e this data onSuccess onError h =
      (Event.addRef onSuccess :: Event.addRef data ::
          (if onError = JS_INVALID_REFERENCE then [] else [Event.addRef onError])) ++
      match recognizedFormat e data with
      | none => []
      | some (some _) =>
        (if onError = JS_INVALID_REFERENCE then [] else [Event.release onError]) ++
          [Event.release data,
            Event.callFunction CallSite.decodeSuccess onSuccess
              [onSuccess, JsValueRef.external h.externals.length]] ++
          (if e.callFunctionFails onSuccess [onSuccess, JsValueRef.external h.externals.length]
                = true ∧ e.handleExceptionExits = true then []
            else [Event.release onSuccess]) ++
          [Event.release onSuccess]
      | some none =>
        [Event.release onSuccess, Event.release data] ++
          (if onError = JS_INVALID_REFERENCE then []
            else
              [Event.callFunction CallSite.decodeError onError [onError]] ++
              (if e.callFunctionFails onError [onError] = true ∧ e.handleExceptionExits = true
                then [] else [Event.release onError]) ++
              [Event.release onError]) := by
  obtain ⟨hs, heq⟩ := DecodeAudioData_accepted e this data onSuccess onError h hacc
  unfold requestEvents
  rw [heq]
  obtain ⟨objects, labNodes, externals, trace, background, dispatcher⟩ := h
  simp only at hb hd
  subst hb
  subst hd
  simp only [runPending, List.nil_append, runTasks, runTask, recognizedFormat]
  cases hst : e.JsGetArrayBufferStorage data with
  | none =>
    by_cases he : onError = JS_INVALID_REFERENCE
    · simp [runTasks, decodeFailed, he, JsRelease]
    · by_cases hf : e.callFunctionFails onError [onError] = true ∧ e.handleExceptionExits = true
      · simp [runTasks, decodeFailed, he, JsRelease, RunAsync, runHandler,
          callbackScriptOnDecodeError, JsCallFunction, hf]
      · simp [runTasks, decodeFailed, he, JsRelease, RunAsync, runHandler,
          callbackScriptOnDecodeError, JsCallFunction, hf]
  | some buffer =>
    by_cases hw : soundExtensionWithin e.memoryPast buffer = false
    · simp [hw]
    cases hx : (soundExtension (byteAt e.memoryPast buffer)).1 with
    | none =>
      by_cases he : onError = JS_INVALID_REFERENCE
      · simp [hw, hx, runTasks, decodeFailed, he, JsRelease]
      · by_cases hf : e.callFunctionFails onError [onError] = true ∧ e.handleExceptionExits = true
        · simp [hw, hx, runTasks, decodeFailed, he, JsRelease, RunAsync, runHandler,
            callbackScriptOnDecodeError, JsCallFunction, hf]
        · simp [hw, hx, runTasks, decodeFailed, he, JsRelease, RunAsync, runHandler,
            callbackScriptOnDecodeError, JsCallFunction, hf]
    | some ext =>
      by_cases hf : e.callFunctionFails onSuccess [onSuccess, JsValueRef.external externals.length]
          = true ∧ e.handleExceptionExits = true
      · by_cases he : onError = JS_INVALID_REFERENCE
        · simp [hw, hx, runTasks, he, JsRelease, RunAsync, runHandler,
            callbackScriptOnDecodeSuccess, JsCallFunction, hf, hs, newObject,
            ObjectToDirectExternal]
        · simp [hw, hx, runTasks, he, JsRelease, RunAsync, runHandler,
            callbackScriptOnDecodeSuccess, JsCallFunction, hf, hs, newObject,
            ObjectToDirectExternal]
      · by_cases he : onError = JS_INVALID_REFERENCE
        · simp [hw, hx, runTasks, he, JsRelease, RunAsync, runHandler,
            callbackScriptOnDecodeSuccess, JsCallFunction, hf, hs, newObject,
            ObjectToDirectExternal]
        · simp [hw, hx, runTasks, he, JsRelease, RunAsync, runHandler,
            callbackScriptOnDecodeSuccess, JsCallFunction, hf, hs, newObject,
            ObjectToDirectExternal]

theorem scriptCalls_append (t1 t2 : List Event) :
    scriptCalls (t1 ++ t2) = scriptCalls t1 ++ scriptCalls t2 := by
  induction t1 with
  | nil => rfl
  | cons ev t ih => cases ev <;> simp [scriptCalls, ih]

/-- The script calls of an accepted request made on a host with no pending
work: one call of the success callback when a format was recognized, one call
of the error callback when none was and there is an error callback, no call
otherwise, and none either when sniffing leaves the captured vector. -/
theorem scriptCalls_requestEvents (e : Env) (this : Nat) (data onSuccess onError : JsValueRef)
    (h : Host) (hb : h.background = []) (hd : h.dispatcher = [])
    (hacc : (DecodeAudioData e this data onSuccess onError h).1 = true) :
    scriptCalls (requestEvents e this data onSuccess onError h) =
      match recognizedFormat e data with
      | none => []
      | some (some _) =>
        [(CallSite.decodeSuccess, onSuccess, [onSuccess, JsValueRef.external h.externals.length])]
      | some none =>
        if onError = JS_INVALID_REFERENCE then []
        else [(CallSite.decodeError, onError, [onError])] := by
  rw [requestEvents_eq e this data onSuccess onError h hb hd hacc]
  rcases hr : recognizedFormat e data with _ | _ | ext
  · simp only [scriptCalls_append]
    split_ifs <;> simp [scriptCalls]
  · simp only [scriptCalls_append]
    split_ifs <;> simp [scriptCalls]
  · simp only [scriptCalls_append]
    split_ifs <;> simp [scriptCalls]

/-! ## Format sniffing: claims C1 and C9 -/

/-- C1. On a captured buffer of at least twelve bytes the format chosen is WAV
exactly when bytes 0..3 are "RIFF" and bytes 8..11 are "WAVE", otherwise Ogg
exactly when bytes 0..3 are "OggS", otherwise none; and two such buffers that
agree on bytes 0..3 and 8..11 get the same format, whatever bytes 4..7, the
bytes from 12 on, and the memory past either buffer hold. -/
theorem sniff_signature_windows (past : Nat → Nat) (buf : List Nat) (hlen : 12 ≤ buf.length) :
    (sniff past buf = some "wav" ↔
        buf.take 4 = cstr "RIFF" ∧ (buf.drop 8).take 4 = cstr "WAVE") ∧
    (sniff past buf = some "ogg" ↔
        ¬(buf.take 4 = cstr "RIFF" ∧ (buf.drop 8).take 4 = cstr "WAVE") ∧
          buf.take 4 = cstr "OggS") ∧
    (sniff past buf = none ↔
        ¬(buf.take 4 = cstr "RIFF" ∧ (buf.drop 8).take 4 = cstr "WAVE") ∧
          ¬buf.take 4 = cstr "OggS") ∧
    (∀ ext, sniff past buf = some ext → ext = "wav" ∨ ext = "ogg") ∧
    (∀ (past2 : Nat → Nat) (buf2 : List Nat), 12 ≤ buf2.length →
        buf2.take 4 = buf.take 4 → (buf2.drop 8).take 4 = (buf.drop 8).take 4 →
        sniff past2 buf2 = sniff past buf) := by
  have key := sniff_eq_of_length past buf hlen
  simp only [wavMagic1, wavMagic2, oggMagic] at key
  have d1 : ("wav" : String) ≠ "ogg" := by decide
  have d2 : ("ogg" : String) ≠ "wav" := by decide
  refine ⟨?_, ?_, ?_, ?_, ?_⟩
  · rw [key]
    split_ifs with hw ho <;> (try simp only [Option.some.injEq, d2, reduceCtorEq]) <;> tauto
  · rw [key]
    split_ifs with hw ho <;> (try simp only [Option.some.injEq, d1, reduceCtorEq]) <;> tauto
  · rw [key]
    split_ifs with hw ho <;> (try simp only [reduceCtorEq]) <;> tauto
  · intro ext
    rw [key]
    split_ifs with hw ho
    · intro hx
      exact Or.inl (Option.some.inj hx).symm
    · intro hx
      exact Or.inr (Option.some.inj hx).symm
    · intro hx
      exact absurd hx (by simp)
  · intro past2 buf2 hlen2 h0 h8
    rw [sniff_eq_of_length past2 buf2 hlen2, sniff_eq_of_length past buf hlen, h0, h8]

/-- Witness for C1: "RIFF", four filler bytes, "WAVE". -/
theorem sniff_signature_windows_witness :
    12 ≤ riffWave.length ∧
      (sniff (fun _ => 0) riffWave = some "wav" ↔
        riffWave.take 4 = cstr "RIFF" ∧ (riffWave.drop 8).take 4 = cstr "WAVE") :=
  ⟨by decide, (sniff_signature_windows (fun _ => 0) riffWave (by decide)).1⟩

/-- C9. Sniffing reads past the end of an undersized buffer: on the empty
buffer the first comparison reads offset 0, and on the three bytes "RIF" it
reads offset 3, whatever the memory there holds. Neither offset is below the
buffer's length. -/
theorem sniff_reads_past_short_buffer (past : Nat → Nat) :
    (0 ∈ sniffReads past [] ∧ ¬0 < ([] : List Nat).length) ∧
    (3 ∈ sniffReads past [82, 73, 70] ∧ ¬3 < ([82, 73, 70] : List Nat).length) := by
  unfold sniffReads
  refine ⟨⟨?_, by decide⟩, ⟨?_, by decide⟩⟩
  · apply soundExtension_reads_first
    rw [wavMagic1_eq]
    simp only [memcmpIsZero]
    split <;> simp
  · apply soundExtension_reads_first
    have b0 : byteAt past [82, 73, 70] 0 = 82 := by simp [byteAt]
    have b1 : byteAt past [82, 73, 70] 1 = 73 := by simp [byteAt]
    have b2 : byteAt past [82, 73, 70] 2 = 70 := by simp [byteAt]
    rw [wavMagic1_eq]
    simp only [memcmpIsZero, b0, b1, b2, if_true, Nat.zero_add, Nat.reduceAdd]
    split <;> simp

/-! ## Projected entry points: claims C5, C6 and C8 -/

/-- C5. Two calls of `getDestination` on a receiver that resolves to a context
return handles to two destination wrappers that both hold the context's own
destination node; no native node is constructed and the receiver still
resolves to the same context, with its destination unchanged. -/
theorem getDestination_twice_same_node (h : Host) (arguments : List JsValueRef) (p : Nat)
    (c : AudioContext) (hr : ExternalToObject h (argument arguments 1) = some (p, c)) :
    externalObject (getDestination arguments 2 (getDestination arguments 2 h).2).2
        (getDestination arguments 2 h).1
      = some (h.objects.length, HostObject.audioDestinationNode p c.m_context.destination) ∧
    externalObject (getDestination arguments 2 (getDestination arguments 2 h).2).2
        (getDestination arguments 2 (getDestination arguments 2 h).2).1
      = some (h.objects.length + 1,
          HostObject.audioDestinationNode p c.m_context.destination) ∧
    (getDestination arguments 2 (getDestination arguments 2 h).2).2.labNodes = h.labNodes ∧
    ExternalToObject (getDestination arguments 2 (getDestination arguments 2 h).2).2
        (argument arguments 1) = some (p, c) := by
  have e1 : getDestination arguments 2 h =
      (JsValueRef.external h.externals.length,
        { h with objects := h.objects ++ [HostObject.audioDestinationNode p
                    c.m_context.destination],
                 externals := h.externals ++ [h.objects.length] }) := by
    simp [getDestination, hr, newObject, ObjectToDirectExternal]
  have hr1 := ExternalToObject_append h (argument arguments 1) p c
    [HostObject.audioDestinationNode p c.m_context.destination] [h.objects.length] hr
  rw [e1]
  have e2 : getDestination arguments 2
      { h with objects := h.objects ++ [HostObject.audioDestinationNode p
                    c.m_context.destination],
               externals := h.externals ++ [h.objects.length] } =
      (JsValueRef.external (h.externals.length + 1),
        { h with objects := h.objects ++ [HostObject.audioDestinationNode p
                    c.m_context.destination,
                    HostObject.audioDestinationNode p c.m_context.destination],
                 externals := h.externals ++ [h.objects.length, h.objects.length + 1] }) := by
    simp [getDestination, hr1, newObject, ObjectToDirectExternal]
  rw [e2]
  refine ⟨?_, ?_, rfl, ?_⟩
  · exact externalObject_new h _ _ _
  · have := externalObject_new
      { h with objects := h.objects ++ [HostObject.audioDestinationNode p
                    c.m_context.destination],
               externals := h.externals ++ [h.objects.length] }
      (HostObject.audioDestinationNode p c.m_context.destination) [] []
    simpa using this
  · exact ExternalToObject_append h (argument arguments 1) p c _ _ hr

/-- Witness for C5: the sample host, whose context is external 0. -/
theorem getDestination_twice_same_node_witness :
    ExternalToObject sampleHost (argument [JsValueRef.script 9, JsValueRef.external 0] 1)
        = some (0, ⟨⟨44100, 0, (0, 0, 0), (0, 0, 0, 0, 0, 0)⟩, []⟩) ∧
    (getDestination [JsValueRef.script 9, JsValueRef.external 0] 2
        (getDestination [JsValueRef.script 9, JsValueRef.external 0] 2
          sampleHost).2).2.labNodes = sampleHost.labNodes :=
  ⟨by decide,
    (getDestination_twice_same_node sampleHost [JsValueRef.script 9, JsValueRef.external 0] 0
      ⟨⟨44100, 0, (0, 0, 0), (0, 0, 0, 0, 0, 0)⟩, []⟩ (by decide)).2.2.1⟩

/-- C6. Each of the six projected entry points, called with an argument count
other than the expected one or with an argument 1 that does not resolve to an
audio context, returns the invalid reference and leaves the whole host state
as it was: listener, heap objects, native nodes, tracker and tracked nodes. -/
theorem entry_point_rejects_without_effect (e : Env) (name : String)
    (entry : List JsValueRef → Nat → Host → JsValueRef × Host)
    (arguments : List JsValueRef) (argumentCount : Nat) (h : Host)
    (hp : (name, entry) ∈ projections e)
    (hbad : argumentCount ≠ specArgumentCount name ∨
      ExternalToObject h (argument arguments 1) = none) :
    entry arguments argumentCount h = (JS_INVALID_REFERENCE, h) := by
  simp only [projections, List.mem_cons, Prod.mk.injEq, List.mem_nil_iff, or_false] at hp
  rcases hp with ⟨rfl, rfl⟩ | ⟨rfl, rfl⟩ | ⟨rfl, rfl⟩ | ⟨rfl, rfl⟩ | ⟨rfl, rfl⟩ | ⟨rfl, rfl⟩
  · rcases hbad with hc | hn
    · have hc2 : argumentCount ≠ 2 := by simpa [specArgumentCount] using hc
      simp [createGainStatic, hc2, RETURN_IF_FALSE_result]
    · simp [createGainStatic, hn, RETURN_IF_FALSE_result]
  · rcases hbad with hc | hn
    · have hc2 : argumentCount ≠ 2 := by simpa [specArgumentCount] using hc
      simp [getDestination, hc2, RETURN_IF_FALSE_result]
    · simp [getDestination, hn, RETURN_IF_FALSE_result]
  · rcases hbad with hc | hn
    · have hc2 : argumentCount ≠ 2 := by simpa [specArgumentCount] using hc
      simp [createBufferSource, hc2, RETURN_IF_FALSE_result]
    · simp [createBufferSource, hn, RETURN_IF_FALSE_result]
  · rcases hbad with hc | hn
    · have hc2 : argumentCount ≠ 2 := by simpa [specArgumentCount] using hc
      simp [createPanner, hc2, RETURN_IF_FALSE_result]
    · simp [createPanner, hn, RETURN_IF_FALSE_result]
  · rcases hbad with hc | hn
    · have hc2 : argumentCount ≠ 5 := by simpa [specArgumentCount] using hc
      simp [listener_setPosition, hc2, RETURN_IF_FALSE_result]
    · simp [listener_setPosition, hn, RETURN_IF_FALSE_result]
  · rcases hbad with hc | hn
    · have hc2 : argumentCount ≠ 8 := by simpa [specArgumentCount] using hc
      simp [listener_setOrientation, hc2, RETURN_IF_FALSE_result]
    · simp [listener_setOrientation, hn, RETURN_IF_FALSE_result]

/-- Witness for C6: `listener_setPosition` called with four arguments on the
sample host, the receiver being its context. -/
theorem entry_point_rejects_without_effect_witness :
    ("listener_setPosition", listener_setPosition (sampleEnv [])) ∈ projections (sampleEnv []) ∧
    (4 : Nat) ≠ specArgumentCount "listener_setPosition" ∧
    listener_setPosition (sampleEnv [])
        [JsValueRef.script 9, JsValueRef.external 0, JsValueRef.script 4, JsValueRef.script 5] 4
        sampleHost = (JS_INVALID_REFERENCE, sampleHost) :=
  ⟨by simp [projections], by decide,
    entry_point_rejects_without_effect (sampleEnv []) "listener_setPosition"
      (listener_setPosition (sampleEnv []))
      [JsValueRef.script 9, JsValueRef.external 0, JsValueRef.script 4, JsValueRef.script 5] 4
      sampleHost (by simp [projections]) (Or.inl (by decide))⟩

/-- C8. On the sample host, `createPanner` and `createBufferSource` called on
the context make a wrapper at address 1 and return a handle to it, yet the
context's `m_audioNodes` stays empty; `createGainStatic` on the same host
does record its wrapper there. -/
theorem createPanner_wrapper_not_tracked :
    (externalObject (createPanner [JsValueRef.script 9, JsValueRef.external 0] 2 sampleHost).2
        (createPanner [JsValueRef.script 9, JsValueRef.external 0] 2 sampleHost).1
        = some (1, HostObject.pannerNode 0 1) ∧
      (ExternalToObject
          (createPanner [JsValueRef.script 9, JsValueRef.external 0] 2 sampleHost).2
          (JsValueRef.external 0)).map (fun r => r.2.m_audioNodes) = some []) ∧
    (externalObject
        (createBufferSource [JsValueRef.script 9, JsValueRef.external 0] 2 sampleHost).2
        (createBufferSource [JsValueRef.script 9, JsValueRef.external 0] 2 sampleHost).1
        = some (1, HostObject.audioBufferSourceNode 0 1) ∧
      (ExternalToObject
          (createBufferSource [JsValueRef.script 9, JsValueRef.external 0] 2 sampleHost).2
          (JsValueRef.external 0)).map (fun r => r.2.m_audioNodes) = some []) ∧
    (externalObject
        (createGainStatic [JsValueRef.script 9, JsValueRef.external 0] 2 sampleHost).2
        (createGainStatic [JsValueRef.script 9, JsValueRef.external 0] 2 sampleHost).1
        = some (1, HostObject.gainNode 0 1) ∧
      (ExternalToObject
          (createGainStatic [JsValueRef.script 9, JsValueRef.external 0] 2 sampleHost).2
          (JsValueRef.external 0)).map (fun r => r.2.m_audioNodes) = some [1]) := by
  decide

/-! ## The decode pipeline: claims C2, C3, C4, C7 and C10 -/

/-- C4. When `data` is not an array buffer (its type is another one, or the
engine cannot tell its type), `DecodeAudioData` returns false and leaves the
host as it was: no reference is added to any value and no background task is
started. -/
theorem DecodeAudioData_rejects_non_ArrayBuffer (e : Env) (this : Nat)
    (data onSuccess onError : JsValueRef) (h : Host)
    (hty : e.JsGetValueType data ≠ some JsValueType.JsArrayBuffer) :
    DecodeAudioData e this data onSuccess onError h = (false, h) ∧
    (∀ v, addRefCount v (DecodeAudioData e this data onSuccess onError h).2.trace
        = addRefCount v h.trace) ∧
    (DecodeAudioData e this data onSuccess onError h).2.background = h.background := by
  have key : DecodeAudioData e this data onSuccess onError h = (false, h) := by
    unfold DecodeAudioData
    cases ht : e.JsGetValueType data with
    | none => rfl
    | some ty =>
      have hne : ty ≠ JsValueType.JsArrayBuffer := by
        intro hx
        exact hty (by rw [ht, hx])
      simp [hne]
  rw [key]
  exact ⟨rfl, fun _ => rfl, rfl⟩

/-- Witness for C4: the data is a script function. -/
theorem DecodeAudioData_rejects_non_ArrayBuffer_witness :
    (sampleEnv riffWave).JsGetValueType sampleOnSuccess ≠ some JsValueType.JsArrayBuffer ∧
    DecodeAudioData (sampleEnv riffWave) 0 sampleOnSuccess sampleOnSuccess sampleOnError
      sampleHost = (false, sampleHost) :=
  ⟨by decide,
    (DecodeAudioData_rejects_non_ArrayBuffer (sampleEnv riffWave) 0 sampleOnSuccess
      sampleOnSuccess sampleOnError sampleHost (by decide)).1⟩

/-- The invocation counts of an accepted request made on a host with no
pending work, once its background task and the handlers it posted have run.
The success and error invocations together are at most one; a recognized
format gives one success invocation and no error invocation; a defined run
that recognizes no format gives no success invocation and one error invocation
when an error callback was supplied, none when not; a sniffing that leaves the
captured vector gives no invocation at all. On a buffer of at least twelve
bytes the run is defined, and the format is recognized exactly when the buffer
has the WAV or the Ogg signature. -/
theorem decode_invocation_counts_defined (e : Env) (this : Nat)
    (data onSuccess onError : JsValueRef) (h : Host)
    (hb : h.background = []) (hd : h.dispatcher = [])
    (hacc : (DecodeAudioData e this data onSuccess onError h).1 = true) :
    successInvocations (requestEvents e this data onSuccess onError h) +
        errorInvocations (requestEvents e this data onSuccess onError h) ≤ 1 ∧
    (∀ ext, recognizedFormat e data = some (some ext) →
      successInvocations (requestEvents e this data onSuccess onError h) = 1 ∧
      errorInvocations (requestEvents e this data onSuccess onError h) = 0) ∧
    (recognizedFormat e data = some none →
      successInvocations (requestEvents e this data onSuccess onError h) = 0 ∧
      errorInvocations (requestEvents e this data onSuccess onError h) =
        if onError = JS_INVALID_REFERENCE then 0 else 1) ∧
    (recognizedFormat e data = none →
      successInvocations (requestEvents e this data onSuccess onError h) = 0 ∧
      errorInvocations (requestEvents e this data onSuccess onError h) = 0) ∧
    (∀ buf, e.JsGetArrayBufferStorage data = some buf → 12 ≤ buf.length →
      ((buf.take 4 = cstr "RIFF" ∧ (buf.drop 8).take 4 = cstr "WAVE") ∨
          buf.take 4 = cstr "OggS" →
        ∃ ext, recognizedFormat e data = some (some ext)) ∧
      (¬((buf.take 4 = cstr "RIFF" ∧ (buf.drop 8).take 4 = cstr "WAVE") ∨
          buf.take 4 = cstr "OggS") →
        recognizedFormat e data = some none)) := by
  have key := scriptCalls_requestEvents e this data onSuccess onError h hb hd hacc
  have hlast : ∀ buf, e.JsGetArrayBufferStorage data = some buf → 12 ≤ buf.length →
      ((buf.take 4 = cstr "RIFF" ∧ (buf.drop 8).take 4 = cstr "WAVE") ∨
          buf.take 4 = cstr "OggS" →
        ∃ ext, recognizedFormat e data = some (some ext)) ∧
      (¬((buf.take 4 = cstr "RIFF" ∧ (buf.drop 8).take 4 = cstr "WAVE") ∨
          buf.take 4 = cstr "OggS") →
        recognizedFormat e data = some none) := by
    intro buf hst hlen
    have hs := sniff_eq_of_length e.memoryPast buf hlen
    have hw := soundExtensionWithin_of_length e.memoryPast buf hlen
    simp only [sniff, wavMagic1, wavMagic2, oggMagic] at hs
    simp only [recognizedFormat, hst, hw, hs, Bool.true_eq_false, if_false]
    constructor
    · intro hsig
      rcases hsig with hsig | hsig
      · exact ⟨"wav", by rw [if_pos hsig]⟩
      · by_cases hr : buf.take 4 = cstr "RIFF" ∧ (buf.drop 8).take 4 = cstr "WAVE"
        · exact ⟨"wav", by rw [if_pos hr]⟩
        · exact ⟨"ogg", by rw [if_neg hr, if_pos hsig]⟩
    · intro hsig
      rw [if_neg (fun hx => hsig (Or.inl hx)), if_neg (fun hx => hsig (Or.inr hx))]
  refine ⟨?_, ?_, ?_, ?_, hlast⟩
  · rcases hr : recognizedFormat e data with _ | _ | ext
    · simp [successInvocations, errorInvocations, key, hr]
    · simp only [successInvocations, errorInvocations, key, hr]
      split_ifs <;> simp
    · simp [successInvocations, errorInvocations, key, hr]
  · intro ext hr
    simp [successInvocations, errorInvocations, key, hr]
  · intro hr
    simp only [successInvocations, errorInvocations, key, hr]
    split_ifs <;> simp
  · intro hr
    simp [successInvocations, errorInvocations, key, hr]

/-- C3. An accepted request whose array buffer is empty, with an error
callback supplied, invokes neither callback: the first `memcmp` of the
sniffing (line 162) compares four bytes of a vector that has none, so the
background task has no defined result and reaches no terminal path; no format
was recognized, yet the error callback is not invoked. On the twelve-byte
"FOOB" buffer the same request invokes the error callback once. -/
theorem decode_empty_buffer_invokes_nothing :
    ((DecodeAudioData (sampleEnv []) 0 sampleData sampleOnSuccess sampleOnError
        sampleHost).1 = true ∧
      (sampleEnv []).JsGetArrayBufferStorage sampleData = some [] ∧
      sampleOnError ≠ JS_INVALID_REFERENCE ∧
      runTask (sampleEnv []) (Task.decode 0 sampleData sampleOnSuccess sampleOnError)
        (DecodeAudioData (sampleEnv []) 0 sampleData sampleOnSuccess sampleOnError
          sampleHost).2 = none ∧
      successInvocations (requestEvents (sampleEnv []) 0 sampleData sampleOnSuccess
        sampleOnError sampleHost) = 0 ∧
      errorInvocations (requestEvents (sampleEnv []) 0 sampleData sampleOnSuccess
        sampleOnError sampleHost) = 0) ∧
    ((DecodeAudioData (sampleEnv foob) 0 sampleData sampleOnSuccess sampleOnError
        sampleHost).1 = true ∧
      successInvocations (requestEvents (sampleEnv foob) 0 sampleData sampleOnSuccess
        sampleOnError sampleHost) = 0 ∧
      errorInvocations (requestEvents (sampleEnv foob) 0 sampleData sampleOnSuccess
        sampleOnError sampleHost) = 1) := by
  decide

/-- C7. In an accepted request made on a host with no pending work, every
script call made at the error-callback call site calls the request's error
callback with the one-element argument array holding that callback; and that
call is made when the sniffing stayed inside the captured vector, no format
was recognized and an error callback was supplied.
The function `callbackScriptOnDecodeError` itself makes exactly that call
whenever its callback is not the invalid reference. -/
theorem error_callback_receives_itself (e : Env) (this : Nat)
    (data onSuccess onError : JsValueRef) (h : Host)
    (hb : h.background = []) (hd : h.dispatcher = [])
    (hacc : (DecodeAudioData e this data onSuccess onError h).1 = true) :
    (∀ c ∈ scriptCalls (requestEvents e this data onSuccess onError h),
      c.1 = CallSite.decodeError → c = (CallSite.decodeError, onError, [onError])) ∧
    (recognizedFormat e data = some none → onError ≠ JS_INVALID_REFERENCE →
      scriptCalls (requestEvents e this data onSuccess onError h)
        = [(CallSite.decodeError, onError, [onError])]) ∧
    (∀ (callback : JsValueRef) (s : Host), callback ≠ JS_INVALID_REFERENCE →
      scriptCalls (callbackScriptOnDecodeError e callback s).trace
        = scriptCalls s.trace ++ [(CallSite.decodeError, callback, [callback])]) := by
  have key := scriptCalls_requestEvents e this data onSuccess onError h hb hd hacc
  refine ⟨?_, ?_, ?_⟩
  · intro c hc hsite
    rw [key] at hc
    rcases hr : recognizedFormat e data with _ | _ | ext
    · simp [hr] at hc
    · simp only [hr] at hc
      split_ifs at hc
      · simp at hc
      · simpa using hc
    · simp only [hr, List.mem_singleton] at hc
      rw [hc] at hsite
      simp at hsite
  · intro hr he
    rw [key, hr]
    simp [he]
  · intro callback s hcb
    unfold callbackScriptOnDecodeError
    simp only [hcb, if_false, JsCallFunction, JsRelease]
    split_ifs <;> simp [scriptCalls_append, scriptCalls]

/-- Witness for C7: the "FOOB" buffer with an error callback. -/
theorem error_callback_receives_itself_witness :
    (DecodeAudioData (sampleEnv foob) 0 sampleData sampleOnSuccess sampleOnError
        sampleHost).1 = true ∧
    scriptCalls (requestEvents (sampleEnv foob) 0 sampleData sampleOnSuccess sampleOnError
        sampleHost) = [(CallSite.decodeError, sampleOnError, [sampleOnError])] :=
  ⟨by decide,
    (error_callback_receives_itself (sampleEnv foob) 0 sampleData sampleOnSuccess sampleOnError
      sampleHost rfl rfl (by decide)).2.1 (by decide) (by decide)⟩

/-- C2. An accepted request on the "RIFF....WAVE" buffer adds one reference to
each of the data, the success callback and the error callback, and by the time
its task and handler have run the success callback has been released twice:
once at the end of `callbackScriptOnDecodeSuccess` and once more by the
handler that called it. On the "FOOB" buffer it is the error callback that is
released twice. No script call fails in either run. -/
theorem decode_releases_invoked_callback_twice :
    ((DecodeAudioData (sampleEnv riffWave) 0 sampleData sampleOnSuccess sampleOnError
        sampleHost).1 = true ∧
      addRefCount sampleOnSuccess (requestEvents (sampleEnv riffWave) 0 sampleData
        sampleOnSuccess sampleOnError sampleHost) = 1 ∧
      releaseCount sampleOnSuccess (requestEvents (sampleEnv riffWave) 0 sampleData
        sampleOnSuccess sampleOnError sampleHost) = 2 ∧
      releaseCount sampleData (requestEvents (sampleEnv riffWave) 0 sampleData
        sampleOnSuccess sampleOnError sampleHost) = 1 ∧
      releaseCount sampleOnError (requestEvents (sampleEnv riffWave) 0 sampleData
        sampleOnSuccess sampleOnError sampleHost) = 1) ∧
    ((DecodeAudioData (sampleEnv foob) 0 sampleData sampleOnSuccess sampleOnError
        sampleHost).1 = true ∧
      addRefCount sampleOnError (requestEvents (sampleEnv foob) 0 sampleData
        sampleOnSuccess sampleOnError sampleHost) = 1 ∧
      releaseCount sampleOnError (requestEvents (sampleEnv foob) 0 sampleData
        sampleOnSuccess sampleOnError sampleHost) = 2 ∧
      releaseCount sampleData (requestEvents (sampleEnv foob) 0 sampleData
        sampleOnSuccess sampleOnError sampleHost) = 1 ∧
      releaseCount sampleOnSuccess (requestEvents (sampleEnv foob) 0 sampleData
        sampleOnSuccess sampleOnError sampleHost) = 1) := by
  decide

/-- C10. When the engine adds the reference to the success callback and then
fails to add the one to the data, `DecodeAudioData` returns false and starts no
background task, but the reference added to the success callback stays: it is
not released by the call, nor by anything run afterwards. -/
theorem DecodeAudioData_rejection_keeps_reference :
    DecodeAudioData (addRefFailsOnData riffWave) 0 sampleData sampleOnSuccess sampleOnError
        sampleHost
      = (false, { sampleHost with trace := [Event.addRef sampleOnSuccess] }) ∧
    (DecodeAudioData (addRefFailsOnData riffWave) 0 sampleData sampleOnSuccess sampleOnError
        sampleHost).2.background = [] ∧
    addRefCount sampleOnSuccess (requestEvents (addRefFailsOnData riffWave) 0 sampleData
        sampleOnSuccess sampleOnError sampleHost) = 1 ∧
    releaseCount sampleOnSuccess (requestEvents (addRefFailsOnData riffWave) 0 sampleData
        sampleOnSuccess sampleOnError sampleHost) = 0 := by
  decide

end HologramJS.Audio
